import Mathlib

/-!
Shallow embedding of the homed-service-zigbee ZCL engine, translated from
src/property.cpp and src/zigbee.cpp, together with theorems about the
frozen claims on the property parsers, the request scheduler, the
interview state machine, the time-cluster and OTA responders and the
message dispatch.

Modelling conventions: machine integers become Nat (wire bytes are Nats
below 256; where C++ overflow or a signed reinterpretation matters it is
written out explicitly), QByteArray becomes List Nat, QVariant becomes
the Value type below, QMap of QString to QVariant becomes a key-sorted
association list exactly as QMap iterates, and double arithmetic on the
small integer inputs of the parsers becomes exact rational arithmetic.
Qt logging, LED and timer bookkeeping carry no state any claim mentions
and are omitted; adapter calls are oracles passed in as parameters.
-/

/-!
ZCL constants. zcl.h is not under src/; the numeric values below are the
ones the specification fixes in its section 6 (frame-control bits, data
types, clusters) together with the standard ZCL global command and
status codes that those names denote.
-/

def FC_CLUSTER_SPECIFIC : Nat := 0x01
def FC_MANUFACTURER_SPECIFIC : Nat := 0x04
def FC_SERVER_TO_CLIENT : Nat := 0x08
def FC_DISABLE_DEFAULT_RESPONSE : Nat := 0x10

def DATA_TYPE_BOOLEAN : Nat := 0x10
def DATA_TYPE_8BIT_BITMAP : Nat := 0x18
def DATA_TYPE_8BIT_UNSIGNED : Nat := 0x20
def DATA_TYPE_16BIT_UNSIGNED : Nat := 0x21
def DATA_TYPE_24BIT_UNSIGNED : Nat := 0x22
def DATA_TYPE_32BIT_UNSIGNED : Nat := 0x23
def DATA_TYPE_48BIT_UNSIGNED : Nat := 0x25
def DATA_TYPE_8BIT_SIGNED : Nat := 0x28
def DATA_TYPE_16BIT_SIGNED : Nat := 0x29
def DATA_TYPE_32BIT_SIGNED : Nat := 0x2B
def DATA_TYPE_8BIT_ENUM : Nat := 0x30
def DATA_TYPE_SINGLE_PRECISION : Nat := 0x39
def DATA_TYPE_OCTET_STRING : Nat := 0x41
def DATA_TYPE_CHARACTER_STRING : Nat := 0x42
def DATA_TYPE_STRUCTURE : Nat := 0x4C
def DATA_TYPE_UTC_TIME : Nat := 0xE2
def DATA_TYPE_IEEE_ADDRESS : Nat := 0xF0

def CMD_READ_ATTRIBUTES : Nat := 0x00
def CMD_READ_ATTRIBUTES_RESPONSE : Nat := 0x01
def CMD_WRITE_ATTRIBUTES : Nat := 0x02
def CMD_WRITE_ATTRIBUTES_RESPONSE : Nat := 0x04
def CMD_CONFIGURE_REPORTING : Nat := 0x06
def CMD_CONFIGURE_REPORTING_RESPONSE : Nat := 0x07
def CMD_REPORT_ATTRIBUTES : Nat := 0x0A
def CMD_DEFAULT_RESPONSE : Nat := 0x0B

def STATUS_SUCCESS : Nat := 0x00
def STATUS_UNSUPPORTED_ATTRIBUTE : Nat := 0x86
def STATUS_NO_IMAGE_AVAILABLE : Nat := 0x98

def CLUSTER_BASIC : Nat := 0x0000
def CLUSTER_GROUPS : Nat := 0x0004
def CLUSTER_TIME : Nat := 0x000A
def CLUSTER_OTA_UPGRADE : Nat := 0x0019
def CLUSTER_IAS_ZONE : Nat := 0x0500
def CLUSTER_TOUCHLINK : Nat := 0x1000

/-- Power source code for battery devices; device.h is not under src/,
the value is the standard ZCL basic-cluster battery code used by the
LUMI join quirk (only its non-zero identity matters to any claim). -/
def POWER_SOURCE_BATTERY : Nat := 0x03

/-!
Byte-level helpers. All multi-byte integers are little-endian on the
wire except the TUYA payload length and value, which are big-endian.
-/

def u16LE (n : Nat) : List Nat := [n % 256, n / 256 % 256]

def u32LE (n : Nat) : List Nat :=
  [n % 256, n / 256 % 256, n / 65536 % 256, n / 16777216 % 256]

def u16LEat (l : List Nat) (i : Nat) : Nat :=
  l.getD i 0 + 256 * l.getD (i + 1) 0

def u32LEat (l : List Nat) (i : Nat) : Nat :=
  l.getD i 0 + 256 * l.getD (i + 1) 0 + 65536 * l.getD (i + 2) 0
    + 16777216 * l.getD (i + 3) 0

def u32BEat (l : List Nat) (i : Nat) : Nat :=
  16777216 * l.getD i 0 + 65536 * l.getD (i + 1) 0 + 256 * l.getD (i + 2) 0
    + l.getD (i + 3) 0

/-- Reduction of an integer into an unsigned 32-bit cell, as the C++
quint32 assignments do. -/
def u32ofInt (n : Int) : Nat := (n % 4294967296).toNat

/-- Reinterpretation of a 16-bit cell as qint16, as the C++ memcpy into a
signed variable does. -/
def toSigned16 (n : Nat) : Int :=
  if n % 65536 < 32768 then (n % 65536 : Int) else (n % 65536 : Int) - 65536

/-- QString built from raw bytes, as the QString(QByteArray) conversions
in the source do for the ASCII names the devices send. -/
def bytesToString (data : List Nat) : String :=
  String.mk (data.map (fun b => Char.ofNat b))

/-- QString::startsWith, stated structurally on the character lists. -/
def strStartsWith (s p : String) : Bool := p.data.isPrefixOf s.data

/-- Modelled from the spec: zclHeader (zcl.cpp is not under src/).
Section 4.1 and 6 of the spec fix the layout: frameControl byte, an
optional little-endian manufacturerCode for manufacturer-specific
frames, transaction id, command id. The engine passes manufacturerCode 0
for every header any claim touches. -/
def zclHeader (frameControl transactionId commandId manufacturerCode : Nat) : List Nat :=
  if manufacturerCode ≠ 0 then
    [frameControl ||| FC_MANUFACTURER_SPECIFIC] ++ u16LE manufacturerCode
      ++ [transactionId, commandId]
  else
    [frameControl, transactionId, commandId]

/-- Modelled from the spec: zclDataSize fixed part (zcl.cpp is not under
src/). Spec section 4.1 and 6: the on-wire byte length of a fixed-width
ZCL data type, 0 signalling an unknown type the caller must treat as an
error. -/
def zclDataSizeFixed (dataType : Nat) : Nat :=
  if dataType = DATA_TYPE_BOOLEAN then 1
  else if dataType = DATA_TYPE_8BIT_BITMAP then 1
  else if dataType = DATA_TYPE_8BIT_UNSIGNED then 1
  else if dataType = DATA_TYPE_8BIT_SIGNED then 1
  else if dataType = DATA_TYPE_8BIT_ENUM then 1
  else if dataType = DATA_TYPE_16BIT_UNSIGNED then 2
  else if dataType = DATA_TYPE_16BIT_SIGNED then 2
  else if dataType = DATA_TYPE_24BIT_UNSIGNED then 3
  else if dataType = DATA_TYPE_32BIT_UNSIGNED then 4
  else if dataType = DATA_TYPE_32BIT_SIGNED then 4
  else if dataType = DATA_TYPE_UTC_TIME then 4
  else if dataType = DATA_TYPE_SINGLE_PRECISION then 4
  else if dataType = DATA_TYPE_48BIT_UNSIGNED then 6
  else if dataType = DATA_TYPE_IEEE_ADDRESS then 8
  else 0

/-- Modelled from the spec: zclDataSize (zcl.cpp is not under src/).
For the variable-length string types it reads the one-byte length prefix
at the offset and advances past it; the second component is how far the
offset advanced. -/
def zclDataSize (dataType : Nat) (payload : List Nat) (offset : Nat) : Nat × Nat :=
  if dataType = DATA_TYPE_OCTET_STRING ∨ dataType = DATA_TYPE_CHARACTER_STRING then
    (payload.getD offset 0, 1)
  else
    (zclDataSizeFixed dataType, 0)

/-!
QVariant and QMap models. Every value a modelled parser stores is either
invalid (a default QVariant), a scalar, a map from names to scalars, or
a list of scalars; QMap iterates its QString keys in sorted order, which
the sorted insertion below reproduces.
-/

inductive Prim where
  | str (s : String)
  | num (q : ℚ)
  | bool (b : Bool)
deriving DecidableEq

inductive Value where
  | invalid
  | prim (p : Prim)
  | map (m : List (String × Prim))
  | list (l : List Prim)
deriving DecidableEq

/-- QMap insert: replaces an existing key, otherwise inserts in key
order. -/
def mapInsert : List (String × Prim) → String → Prim → List (String × Prim)
  | [], k, p => [(k, p)]
  | (k1, p1) :: rest, k, p =>
    if k < k1 then (k, p) :: (k1, p1) :: rest
    else if k = k1 then (k, p) :: rest
    else (k1, p1) :: mapInsert rest k p

/-- QMap value lookup. -/
def mapGet : List (String × Prim) → String → Option Prim
  | [], _ => none
  | (k1, p) :: rest, k => if k1 = k then some p else mapGet rest k

/-- QVariant::toMap, an empty map for non-map variants. -/
def Value.toMap : Value → List (String × Prim)
  | .map m => m
  | _ => []

/-!
Property parsers (src/property.cpp). Each parser takes the attribute
triple and the current m_value and returns the new m_value; the
misspelt name parseAttribte is the source's.
-/

/-- PropertyObject::percentage, property.cpp lines 59 to 68: clips value
into the range, then maps it linearly onto the percent scale; the
quint8 cast truncates the double toward zero. -/
def PropertyObject.percentage (mn mx value : ℚ) : Nat :=
  let v1 := if value < mn then mn else value
  let v2 := if mx < v1 then mx else v1
  (⌊(v2 - mn) / (mx - mn) * 100⌋).toNat

/-- Properties::BatteryVoltage::parseAttribte, property.cpp lines 70 to
76. -/
def Properties.BatteryVoltage.parseAttribte
    (attributeId dataType : Nat) (data : List Nat) (v : Value) : Value :=
  if attributeId ≠ 0x0020 ∨ dataType ≠ DATA_TYPE_8BIT_UNSIGNED ∨ data.length ≠ 1 then v
  else .prim (.num (PropertyObject.percentage 2850 3200 ((data.getD 0 0 : ℚ) * 100)))

/-- PropertiesLUMI::CubeMovement::parseAttribte, property.cpp lines 780
to 804; the two payload bytes are read little-endian into a qint16. -/
def PropertiesLUMI.CubeMovement.parseAttribte
    (attributeId dataType : Nat) (data : List Nat) (v : Value) : Value :=
  if attributeId ≠ 0x0055 ∨ dataType ≠ DATA_TYPE_16BIT_UNSIGNED ∨ data.length ≠ 2 then v
  else
    let value := toSigned16 (data.getD 0 0 + 256 * data.getD 1 0)
    if value = 0 then .prim (.str "shake")
    else if value = 2 then .prim (.str "wake")
    else if value = 3 then .prim (.str "fall")
    else if 512 ≤ value then .prim (.str "tap")
    else if 256 ≤ value then .prim (.str "slide")
    else if 128 ≤ value then .prim (.str "flip")
    else if 64 ≤ value then .prim (.str "drop")
    else v

/-- PropertiesOther::KonkeButtonAction::parseAttribte, property.cpp
lines 940 to 951, including the source's conjunctive guard (a lone
ampersand-pair where the sibling parsers test each contract component
disjunctively) and its missing length check; data.at(0) on an empty
array is undefined in the source and modelled with a 0 default. -/
def PropertiesOther.KonkeButtonAction.parseAttribte
    (attributeId dataType : Nat) (data : List Nat) (v : Value) : Value :=
  if attributeId ≠ 0x0000 ∧ dataType ≠ DATA_TYPE_BOOLEAN then v
  else
    let b := data.getD 0 0
    if b = 0x80 then .prim (.str "singleClick")
    else if b = 0x81 then .prim (.str "doubleClick")
    else if b = 0x82 then .prim (.str "longClick")
    else v

/-!
TUYA properties (src/property.cpp lines 813 to 905). The subclasses of
PropertiesTUYA::Data override the virtual update; the embedding passes
the override as a function argument.
-/

structure TuyaHeader where
  status : Nat
  transactionId : Nat
  dataPoint : Nat
  dataType : Nat
  length : Nat

/-- Modelled from the spec: the tuyaHeaderStruct layout (zcl.h is not
under src/). Spec section 6: status u8, transaction id u8, dataPoint u8,
dataType u8, then a big-endian u16 length, followed by the value. -/
def tuyaHeader (payload : List Nat) : TuyaHeader :=
  { status := payload.getD 0 0
    transactionId := payload.getD 1 0
    dataPoint := payload.getD 2 0
    dataType := payload.getD 3 0
    length := 256 * payload.getD 4 0 + payload.getD 5 0 }

/-- The QVariant a TUYA data point carries: parseData produces either a
bool or an unsigned number. -/
inductive TuyaValue where
  | bool (b : Bool)
  | num (n : Nat)

def TuyaValue.toInt : TuyaValue → Nat
  | .bool b => if b then 1 else 0
  | .num n => n

def TuyaValue.toBool : TuyaValue → Bool
  | .bool b => b
  | .num n => n != 0

def TuyaValue.toDouble : TuyaValue → ℚ
  | .bool b => if b then 1 else 0
  | .num n => n

/-- PropertiesTUYA::Data::parseData, property.cpp lines 829 to 860:
type 0x01 is a one-byte bool, 0x02 a big-endian u32, 0x04 a u8;
anything else is ignored (an invalid QVariant). -/
def PropertiesTUYA.Data.parseData (header : TuyaHeader) (data : List Nat) : Option TuyaValue :=
  if header.dataType = 0x01 then
    if header.length = 1 then some (.bool (data.getD 0 0 != 0)) else none
  else if header.dataType = 0x02 then
    if header.length = 4 then some (.num (u32BEat data 0)) else none
  else if header.dataType = 0x04 then
    if header.length = 1 then some (.num (data.getD 0 0)) else none
  else none

/-- PropertiesTUYA::Data::parseCommand, property.cpp lines 813 to 827:
reads the TUYA header, accepts commands 0x01 and 0x02 only, decodes the
value and hands it to the subclass update. -/
def PropertiesTUYA.Data.parseCommand (update : Nat → TuyaValue → Value → Value)
    (commandId : Nat) (payload : List Nat) (v : Value) : Value :=
  let header := tuyaHeader payload
  if commandId ≠ 0x01 ∧ commandId ≠ 0x02 then v
  else
    match PropertiesTUYA.Data.parseData header (payload.drop 6) with
    | none => v
    | some data => update header.dataPoint data v

/-- PropertiesTUYA::NeoSiren::update, property.cpp lines 862 to 885.
QList::at with an out-of-range volume index is undefined in the source
and modelled with an empty-string default. -/
def PropertiesTUYA.NeoSiren.update (dataPoint : Nat) (data : TuyaValue) (v : Value) : Value :=
  let m := v.toMap
  let m :=
    if dataPoint = 0x05 then
      mapInsert m "volume" (.str ((["low", "medium", "high"] : List String).getD data.toInt ""))
    else if dataPoint = 0x07 then mapInsert m "duration" (.num data.toInt)
    else if dataPoint = 0x0D then mapInsert m "alarm" (.bool data.toBool)
    else if dataPoint = 0x0F then mapInsert m "battery" (.num data.toInt)
    else if dataPoint = 0x15 then mapInsert m "melody" (.num data.toInt)
    else m
  if m.isEmpty then v else .map m

/-- PropertiesTUYA::PresenceSensor::update, property.cpp lines 887 to
905; its switch has cases 0x01, 0x02, 0x03, 0x04, 0x65 and 0x68 and no
case for dataPoint 0x07. -/
def PropertiesTUYA.PresenceSensor.update (dataPoint : Nat) (data : TuyaValue) (v : Value) : Value :=
  let m := v.toMap
  let m :=
    if dataPoint = 0x01 then mapInsert m "occupancy" (.bool data.toBool)
    else if dataPoint = 0x02 then mapInsert m "sensitivity" (.num data.toInt)
    else if dataPoint = 0x03 then mapInsert m "distanceMin" (.num (data.toDouble / 100))
    else if dataPoint = 0x04 then mapInsert m "distanceMax" (.num (data.toDouble / 100))
    else if dataPoint = 0x65 then mapInsert m "detectionDelay" (.num data.toInt)
    else if dataPoint = 0x68 then mapInsert m "illuminance" (.num data.toInt)
    else m
  if m.isEmpty then v else .map m

/-!
Request scheduler (src/zigbee.cpp lines 1314 to 1395). The table is a
QMap from the rolling u8 id to a request, iterated in ascending id
order, which the sorted lists below reproduce. The per-type adapter
calls of the first pass all have the same shape, a synchronous accept or
refuse verdict, modelled by the accept oracle keyed by the request id.
-/

inductive RequestStatus where
  | Pending
  | Sent
  | Finished
  | Aborted
deriving DecidableEq

inductive RequestType where
  | Binding
  | Data
  | Remove
  | LQI
  | Interview
deriving DecidableEq

structure Request where
  id : Nat
  kind : RequestType
  status : RequestStatus
deriving DecidableEq

/-- First loop of ZigBee::handleRequests, zigbee.cpp lines 1316 to 1383:
every Pending entry is handed to the adapter and becomes Sent, or
Aborted when the adapter refuses; other statuses are skipped. -/
def ZigBee.sendPass (accept : Nat → Bool) (requests : List Request) : List Request :=
  requests.map fun r =>
    if r.status = RequestStatus.Pending then
      if accept r.id then { r with status := RequestStatus.Sent }
      else { r with status := RequestStatus.Aborted }
    else r

/-- Second loop of ZigBee::handleRequests, zigbee.cpp lines 1385 to
1392, exactly as written: the body erases a Finished or Aborted entry
with erase(it++), which already moves the iterator to the successor,
breaks when that successor is the end, and then the for statement
advances the iterator once more, so the successor of every erased entry
is passed over without being examined. -/
def ZigBee.removePass : List Request → List Request
  | [] => []
  | r :: rest =>
    if r.status = RequestStatus.Finished ∨ r.status = RequestStatus.Aborted then
      match rest with
      | [] => []
      | next :: rest2 => next :: ZigBee.removePass rest2
    else r :: ZigBee.removePass rest

/-- ZigBee::handleRequests, zigbee.cpp lines 1314 to 1395: the send pass
followed by the removal pass (the final timer stop carries no table
state). -/
def ZigBee.handleRequests (accept : Nat → Bool) (requests : List Request) : List Request :=
  ZigBee.removePass (ZigBee.sendPass accept requests)

/-!
Device model (device.h is not under src/; the fields below are the ones
src/zigbee.cpp reads and writes, with the constructor defaults modelled
from the spec).
-/

inductive LogicalType where
  | Coordinator
  | Router
  | EndDevice
deriving DecidableEq

inductive ZoneStatus where
  | Unknown
  | SetAddress
  | Enroll
  | Enrolled
deriving DecidableEq

structure Device where
  manufacturerName : String
  modelName : String
  version : Nat
  powerSource : Nat
  logicalType : LogicalType
  interviewFinished : Bool
  descriptorReceived : Bool
  endpointsReceived : Bool
  interviewEndpointId : Nat
  removed : Bool

/-- A property attached to an endpoint: its cluster, its current
m_value and its two virtual parsers (the polymorphic Property tree of
property.cpp, abstracted over the concrete parser pair). -/
structure Property where
  name : String
  clusterId : Nat
  value : Value
  parseA : Nat → Nat → List Nat → Value → Value
  parseC : Nat → List Nat → Value → Value

structure Endpoint where
  id : Nat
  inClusters : List Nat
  descriptorReceived : Bool
  zoneStatus : ZoneStatus
  updated : Bool
  properties : List Property

/-- Modelled from the spec: the DeviceObject constructor (device.h is
not under src/). A freshly created Device has empty manufacturer and
model names; spec section 4.5 reads both from the Basic cluster during
the interview and fails the interview while they are still empty, so
they start empty, and every flag starts cleared. -/
def DeviceObject.new : Device :=
  { manufacturerName := ""
    modelName := ""
    version := 0
    powerSource := 0
    logicalType := LogicalType.EndDevice
    interviewFinished := false
    descriptorReceived := false
    endpointsReceived := false
    interviewEndpointId := 0
    removed := false }

/-- The coordinator catalogue entry built by ZigBee::coordinatorReady,
zigbee.cpp lines 991 to 1005: a fresh device named for the coordinator
on which setLogicalType(Coordinator) and setInterviewFinished() are
called; no name attributes are ever written to it. -/
def ZigBee.coordinatorDevice : Device :=
  { DeviceObject.new with
      logicalType := LogicalType.Coordinator
      interviewFinished := true }

/-- The device-side effect of ZigBee::interviewFinished, zigbee.cpp
lines 437 to 456: the flag is set; the call also runs setupDevice and
configureReporting for the registry-provided reportings and stops the
interview timer, which belong to the out-of-scope device registry (spec
section 4.3) and timer bookkeeping and are represented by the
interviewFinishedEvent effect at the call sites. -/
def ZigBee.interviewFinishedStep (d : Device) : Device :=
  { d with interviewFinished := true }

/-- The IAS-zone part of ZigBee::interviewRequest, zigbee.cpp lines 371
to 425: the loop walks the endpoints, and for the first IAS-zone
endpoint whose sub-state is not Enrolled it issues the adapter request
for that state and returns (a1 and a2 are the oracle verdicts of the
first and second adapter call; false means the request failed and the
interview errors out). When the loop completes, interviewFinished runs. -/
def ZigBee.iasInterviewLoop (a1 a2 : Bool) (d : Device) : List Endpoint → Bool × Device
  | [] => (true, ZigBee.interviewFinishedStep d)
  | e :: rest =>
    if (e.inClusters.contains CLUSTER_IAS_ZONE : Bool) then
      match e.zoneStatus with
      | ZoneStatus.Unknown => (a1, d)
      | ZoneStatus.SetAddress => (a1, d)
      | ZoneStatus.Enroll => (a1 && a2, d)
      | ZoneStatus.Enrolled => ZigBee.iasInterviewLoop a1 a2 d rest
    else ZigBee.iasInterviewLoop a1 a2 d rest

/-- ZigBee::interviewRequest, zigbee.cpp lines 319 to 426. While the
manufacturer or model name is empty it walks the discovery ladder (node
descriptor, active endpoints, simple descriptors, basic attributes) and
never reaches interviewFinished; with both names known it runs the IAS
ladder and finishes when every IAS endpoint is Enrolled. The Bool result
is the source's: true when a sub-request was launched or the interview
finished, false when the step failed and interviewError ran. -/
def ZigBee.interviewRequest (a1 a2 : Bool) (d : Device) (eps : List Endpoint) : Bool × Device :=
  if d.manufacturerName = "" ∨ d.modelName = "" then
    if d.descriptorReceived = false then (a1, d)
    else if d.endpointsReceived = false then (a1, d)
    else
      match eps.find? (fun e => !e.descriptorReceived) with
      | some e => (a1, { d with interviewEndpointId := e.id })
      | none =>
        match eps.find? (fun e => e.inClusters.contains CLUSTER_BASIC) with
        | some _ => (a1, d)
        | none => (false, d)
  else
    ZigBee.iasInterviewLoop a1 a2 d eps

/-!
Message engine state and effects. ZState bundles the state a single
incoming frame can touch: the resolved device and endpoint and the
configured OTA image (m_otaUpgradeFile together with the file it names;
none models a missing or unopenable file). Observable actions become an
ordered effect list: enqueueDataRequest calls carry their frame bytes,
storeProperties and the endpointUpdated signal mark the property
persistence and emission, interviewDevice marks the interview re-kick.
-/

structure OtaHeader where
  manufacturerCode : Nat
  imageType : Nat
  fileVersion : Nat
  imageSize : Nat

/-- Modelled from the spec: the fixed OTA file header (zcl.h is not
under src/). Spec section 4.7 compares manufacturerCode, imageType and
fileVersion and replies with those fields and imageSize; content is the
whole file, from whose start fileOffset seeks. -/
structure OtaFile where
  header : OtaHeader
  content : List Nat

structure ZState where
  device : Device
  endpoint : Endpoint
  ota : Option OtaFile

inductive Effect where
  | enqueueData (endpointId clusterId : Nat) (data : List Nat)
  | storeProperties
  | endpointUpdated (endpointId : Nat)
  | interviewDevice
  | interviewFinishedEvent
deriving DecidableEq

/-- Recognises the Default Response frame among enqueued data requests:
frame control with exactly the server-to-client and
disable-default-response bits, command id CMD_DEFAULT_RESPONSE. -/
def isDefaultResponseEffect : Effect → Bool
  | Effect.enqueueData _ _ (fc :: _ :: cmd :: _) =>
    (fc == FC_SERVER_TO_CLIENT ||| FC_DISABLE_DEFAULT_RESPONSE) && (cmd == CMD_DEFAULT_RESPONSE)
  | _ => false

/-- The property loop of ZigBee::parseAttribute, zigbee.cpp lines 604
to 620: every property on the matching cluster runs its parser; the
results are the rewritten list, the check flag, and whether any value
changed (which is what sets endpoint->updated). -/
def parsePropsA (clusterId attributeId dataType : Nat) (data : List Nat) :
    List Property → List Property × Bool × Bool
  | [] => ([], false, false)
  | p :: rest =>
    let r := parsePropsA clusterId attributeId dataType data rest
    if p.clusterId = clusterId then
      let v := p.parseA attributeId dataType data p.value
      ({ p with value := v } :: r.1, true, if v = p.value then r.2.2 else true)
    else (p :: r.1, r.2.1, r.2.2)

/-- The property loop of ZigBee::clusterCommandReceived, zigbee.cpp
lines 783 to 799, same shape with parseCommand. -/
def parsePropsC (clusterId commandId : Nat) (payload : List Nat) :
    List Property → List Property × Bool × Bool
  | [] => ([], false, false)
  | p :: rest =>
    let r := parsePropsC clusterId commandId payload rest
    if p.clusterId = clusterId then
      let v := p.parseC commandId payload p.value
      ({ p with value := v } :: r.1, true, if v = p.value then r.2.2 else true)
    else (p :: r.1, r.2.1, r.2.2)

/-- The TUYA model-name list of ZigBee::parseAttribute, zigbee.cpp lines
546 to 552, duplicate entry included. -/
def tuyaModels : List String :=
  ["TS0001", "TS0002", "TS0004", "TS0004",
   "TS0011", "TS0012", "TS0013", "TS0014",
   "TS0201", "TS0202", "TS0203", "TS0204", "TS0205", "TS0207",
   "TS0601"]

/-- The sub-list of TUYA models whose manufacturer name is promoted into
the model name, zigbee.cpp line 556. -/
def tuyaPromoted : List String :=
  ["TS0001", "TS0011", "TS0201", "TS0202", "TS0207", "TS0601"]

/-- The tail of the Basic-cluster branch of ZigBee::parseAttribute,
zigbee.cpp lines 544 to 565: once both names are known on a
not-yet-interviewed device and the attribute was a name, the TUYA
quirk rewrites the names and the interview is kicked again. -/
def ZigBee.basicFinish (attributeId : Nat) (d : Device) (ep : Endpoint) :
    Device × Endpoint × List Effect :=
  if d.interviewFinished = false ∧ d.manufacturerName ≠ "" ∧ d.modelName ≠ ""
      ∧ (attributeId = 0x0004 ∨ attributeId = 0x0005) then
    if d.manufacturerName ≠ "" ∧ (tuyaModels.contains d.modelName : Bool) then
      let d1 := if (tuyaPromoted.contains d.modelName : Bool) then
        { d with modelName := d.manufacturerName } else d
      ({ d1 with manufacturerName := "TUYA" }, ep, [Effect.interviewDevice])
    else (d, ep, [Effect.interviewDevice])
  else (d, ep, [])

/-- ZigBee::parseAttribute, zigbee.cpp lines 493 to 624. The Basic
cluster feeds the interview (with the LUMI join quirk that finishes the
interview straight from a lumi.sensor model name), IAS Zone attributes
0x0000 and 0x0010 drive the zone sub-state, and only an interviewed
device forwards anything to the per-property parsers. ieee is the
adapter's IEEE address the 0x0010 value is compared against. -/
def ZigBee.parseAttribute (ieee : List Nat) (d : Device) (ep : Endpoint)
    (clusterId attributeId dataType : Nat) (data : List Nat) :
    Device × Endpoint × List Effect :=
  if clusterId = CLUSTER_BASIC then
    if attributeId = 0x0001 then
      if dataType ≠ DATA_TYPE_8BIT_UNSIGNED then (d, ep, [])
      else ZigBee.basicFinish 0x0001 { d with version := data.getD 0 0 } ep
    else if attributeId = 0x0004 then
      if dataType ≠ DATA_TYPE_CHARACTER_STRING then (d, ep, [])
      else ZigBee.basicFinish 0x0004 { d with manufacturerName := (bytesToString data).trim } ep
    else if attributeId = 0x0005 then
      if dataType ≠ DATA_TYPE_CHARACTER_STRING then (d, ep, [])
      else if d.manufacturerName = "" ∧ strStartsWith ((bytesToString data).trim) "lumi.sensor" then
        (ZigBee.interviewFinishedStep
          { d with modelName := (bytesToString data).trim,
                   powerSource := POWER_SOURCE_BATTERY, manufacturerName := "LUMI" },
         ep, [Effect.interviewFinishedEvent])
      else ZigBee.basicFinish 0x0005 { d with modelName := (bytesToString data).trim } ep
    else if attributeId = 0x0007 then
      if dataType ≠ DATA_TYPE_8BIT_UNSIGNED ∧ dataType ≠ DATA_TYPE_8BIT_ENUM then (d, ep, [])
      else ZigBee.basicFinish 0x0007 { d with powerSource := data.getD 0 0 } ep
    else ZigBee.basicFinish attributeId d ep
  else if clusterId = CLUSTER_IAS_ZONE ∧ (attributeId = 0x0000 ∨ attributeId = 0x0010) then
    if attributeId = 0x0000 then
      if dataType ≠ DATA_TYPE_8BIT_ENUM then (d, ep, [])
      else
        (d, { ep with zoneStatus :=
          if data.getD 0 0 ≠ 0 then ZoneStatus.Enrolled else ZoneStatus.Enroll }, [])
    else
      if dataType ≠ DATA_TYPE_IEEE_ADDRESS then (d, ep, [])
      else
        (d,
         (if data.take 8 = ieee.take 8 then ep
          else { ep with zoneStatus := ZoneStatus.SetAddress }),
         [Effect.interviewDevice])
  else if d.interviewFinished = false then (d, ep, [])
  else
    let r := parsePropsA clusterId attributeId dataType data ep.properties
    (d, { ep with properties := r.1, updated := ep.updated || r.2.2 }, [])

/-- The OTA-upgrade branch of ZigBee::clusterCommandReceived,
zigbee.cpp lines 677 to 781. The request struct layouts (zcl.h is not
under src/) are modelled from the spec's section 4.7 exchange: a
field-control byte, then little-endian manufacturerCode, imageType and
fileVersion, the block request adding fileOffset and dataSizeMax, the
end request starting with its status byte. -/
def ZigBee.otaClusterCommand (st : ZState) (transactionId commandId : Nat)
    (payload : List Nat) : ZState × List Effect :=
  if commandId = 0x01 then
    let reqManufacturerCode := u16LEat payload 1
    let reqImageType := u16LEat payload 3
    let reqFileVersion := u32LEat payload 5
    match st.ota with
    | none =>
      (st, [Effect.enqueueData st.endpoint.id CLUSTER_OTA_UPGRADE
        (zclHeader (FC_CLUSTER_SPECIFIC ||| FC_SERVER_TO_CLIENT ||| FC_DISABLE_DEFAULT_RESPONSE)
          transactionId 0x02 0 ++ [STATUS_NO_IMAGE_AVAILABLE])])
    | some f =>
      if reqManufacturerCode ≠ f.header.manufacturerCode ∨ reqImageType ≠ f.header.imageType then
        (st, [Effect.enqueueData st.endpoint.id CLUSTER_OTA_UPGRADE
          (zclHeader (FC_CLUSTER_SPECIFIC ||| FC_SERVER_TO_CLIENT ||| FC_DISABLE_DEFAULT_RESPONSE)
            transactionId 0x02 0 ++ [STATUS_NO_IMAGE_AVAILABLE])])
      else if reqFileVersion = f.header.fileVersion then
        (st, [Effect.enqueueData st.endpoint.id CLUSTER_OTA_UPGRADE
          (zclHeader (FC_CLUSTER_SPECIFIC ||| FC_SERVER_TO_CLIENT ||| FC_DISABLE_DEFAULT_RESPONSE)
            transactionId 0x02 0 ++ [STATUS_NO_IMAGE_AVAILABLE])])
      else
        (st, [Effect.enqueueData st.endpoint.id CLUSTER_OTA_UPGRADE
          (zclHeader (FC_CLUSTER_SPECIFIC ||| FC_SERVER_TO_CLIENT ||| FC_DISABLE_DEFAULT_RESPONSE)
            transactionId 0x02 0
           ++ [0x00] ++ u16LE f.header.manufacturerCode ++ u16LE f.header.imageType
           ++ u32LE f.header.fileVersion ++ u32LE f.header.imageSize)])
  else if commandId = 0x03 then
    let reqManufacturerCode := u16LEat payload 1
    let reqImageType := u16LEat payload 3
    let reqFileVersion := u32LEat payload 5
    let fileOffset := u32LEat payload 9
    let dataSizeMax := payload.getD 13 0
    match st.ota with
    | none =>
      (st, [Effect.enqueueData st.endpoint.id CLUSTER_OTA_UPGRADE
        (zclHeader (FC_CLUSTER_SPECIFIC ||| FC_SERVER_TO_CLIENT ||| FC_DISABLE_DEFAULT_RESPONSE)
          transactionId 0x05 0 ++ [STATUS_NO_IMAGE_AVAILABLE])])
    | some f =>
      if reqManufacturerCode ≠ f.header.manufacturerCode ∨ reqImageType ≠ f.header.imageType
          ∨ reqFileVersion ≠ f.header.fileVersion then
        (st, [Effect.enqueueData st.endpoint.id CLUSTER_OTA_UPGRADE
          (zclHeader (FC_CLUSTER_SPECIFIC ||| FC_SERVER_TO_CLIENT ||| FC_DISABLE_DEFAULT_RESPONSE)
            transactionId 0x05 0 ++ [STATUS_NO_IMAGE_AVAILABLE])])
      else
        let block := (f.content.drop fileOffset).take dataSizeMax
        (st, [Effect.enqueueData st.endpoint.id CLUSTER_OTA_UPGRADE
          (zclHeader (FC_CLUSTER_SPECIFIC ||| FC_SERVER_TO_CLIENT ||| FC_DISABLE_DEFAULT_RESPONSE)
            transactionId 0x05 0
           ++ [0x00] ++ u16LE reqManufacturerCode ++ u16LE reqImageType
           ++ u32LE reqFileVersion ++ u32LE fileOffset ++ [block.length % 256] ++ block)])
  else if commandId = 0x06 then
    let st1 := { st with ota := none }
    if payload.getD 0 0 ≠ 0 then (st1, [])
    else
      (st1, [Effect.enqueueData st.endpoint.id CLUSTER_OTA_UPGRADE
        (zclHeader (FC_CLUSTER_SPECIFIC ||| FC_SERVER_TO_CLIENT ||| FC_DISABLE_DEFAULT_RESPONSE)
          transactionId 0x07 0
         ++ u16LE (u16LEat payload 1) ++ u16LE (u16LEat payload 3)
         ++ u32LE (u32LEat payload 5) ++ u32LE 0 ++ u32LE 0)])
  else (st, [])

/-- ZigBee::clusterCommandReceived, zigbee.cpp lines 626 to 803: a
device whose interview has not finished is dropped before anything
runs; the Groups branch only logs; the OTA branch answers the upgrade
protocol; every other cluster goes to the property parseCommand loop. -/
def ZigBee.clusterCommandReceived (st : ZState) (clusterId transactionId commandId : Nat)
    (payload : List Nat) : ZState × List Effect :=
  if st.device.interviewFinished = false then (st, [])
  else if clusterId = CLUSTER_GROUPS then (st, [])
  else if clusterId = CLUSTER_OTA_UPGRADE then
    ZigBee.otaClusterCommand st transactionId commandId payload
  else
    let r := parsePropsC clusterId commandId payload st.endpoint.properties
    ({ st with endpoint :=
        { st.endpoint with properties := r.1, updated := st.endpoint.updated || r.2.2 } }, [])

/-- The record builder of the CMD_READ_ATTRIBUTES branch of
ZigBee::globalCommandReceived, zigbee.cpp lines 817 to 860: the payload
is walked two bytes at a time, each attribute id is echoed, the Time
cluster answers attributes 0x0000, 0x0002 and 0x0007 and everything
else gets STATUS_UNSUPPORTED_ATTRIBUTE. now is the current Unix epoch
second (QDateTime::currentDateTime().toTime_t()) and tz the UTC offset
in seconds; both quint32 assignments wrap as the source's do. -/
def ZigBee.readAttributesRecords (clusterId : Nat) (now : Nat) (tz : Int) :
    List Nat → List Nat
  | a :: b :: rest =>
    [a, b]
    ++ (if clusterId = CLUSTER_TIME
          ∧ (a + 256 * b = 0x0000 ∨ a + 256 * b = 0x0002 ∨ a + 256 * b = 0x0007) then
          [STATUS_SUCCESS]
          ++ (if a + 256 * b = 0x0000 then
                [DATA_TYPE_UTC_TIME] ++ u32LE (u32ofInt ((now : Int) - 946684800))
              else if a + 256 * b = 0x0002 then
                [DATA_TYPE_32BIT_SIGNED] ++ u32LE (u32ofInt tz)
              else
                [DATA_TYPE_32BIT_UNSIGNED] ++ u32LE (u32ofInt ((now : Int) + tz - 946684800)))
        else [STATUS_UNSUPPORTED_ATTRIBUTE])
    ++ ZigBee.readAttributesRecords clusterId now tz rest
  | _ => []

/-- The attribute-record walk of ZigBee::globalCommandReceived,
zigbee.cpp lines 869 to 903, shared by CMD_READ_ATTRIBUTES_RESPONSE and
CMD_REPORT_ATTRIBUTES: records are consumed while more than two bytes
remain, a response record with bad status is skipped over, an unknown
fixed data type abandons the rest, and every record reaches
parseAttribute. Every step consumes at least three bytes, so the
payload length passed as fuel by the caller makes the recursion
structural without ever running dry. -/
def ZigBee.attributeRecords (fuel : Nat) (ieee : List Nat) (st : ZState)
    (clusterId commandId : Nat) (payload : List Nat) : ZState × List Effect :=
  match fuel with
  | 0 => (st, [])
  | fuel + 1 =>
    if 2 < payload.length then
      if commandId = CMD_READ_ATTRIBUTES_RESPONSE ∧ payload.getD 2 0 ≠ 0 then
        ZigBee.attributeRecords fuel ieee st clusterId commandId (payload.drop 3)
      else
        let dataType := if commandId = CMD_READ_ATTRIBUTES_RESPONSE
          then payload.getD 3 0 else payload.getD 2 0
        let start := if commandId = CMD_READ_ATTRIBUTES_RESPONSE then 4 else 3
        let sz := zclDataSize dataType payload start
        let attributeId := payload.getD 0 0 + 256 * payload.getD 1 0
        if dataType ≠ DATA_TYPE_OCTET_STRING ∧ dataType ≠ DATA_TYPE_CHARACTER_STRING
            ∧ sz.1 = 0 then
          (st, [])
        else
          let pa := ZigBee.parseAttribute ieee st.device st.endpoint clusterId attributeId
            dataType ((payload.drop (start + sz.2)).take sz.1)
          let rest := ZigBee.attributeRecords fuel ieee
            { st with device := pa.1, endpoint := pa.2.1 } clusterId commandId
            (payload.drop (start + sz.2 + sz.1))
          (rest.1, pa.2.2 ++ rest.2)
    else (st, [])

/-- ZigBee::globalCommandReceived, zigbee.cpp lines 805 to 923. -/
def ZigBee.globalCommandReceived (ieee : List Nat) (now : Nat) (tz : Int) (st : ZState)
    (clusterId transactionId commandId : Nat) (payload : List Nat) : ZState × List Effect :=
  if commandId = CMD_CONFIGURE_REPORTING_RESPONSE ∨ commandId = CMD_DEFAULT_RESPONSE then
    (st, [])
  else if commandId = CMD_READ_ATTRIBUTES then
    (st, [Effect.enqueueData st.endpoint.id clusterId
      (zclHeader (FC_SERVER_TO_CLIENT ||| FC_DISABLE_DEFAULT_RESPONSE) transactionId
        CMD_READ_ATTRIBUTES_RESPONSE 0
       ++ ZigBee.readAttributesRecords clusterId now tz payload)])
  else if commandId = CMD_READ_ATTRIBUTES_RESPONSE ∨ commandId = CMD_REPORT_ATTRIBUTES then
    ZigBee.attributeRecords payload.length ieee st clusterId commandId payload
  else if commandId = CMD_WRITE_ATTRIBUTES_RESPONSE then
    if clusterId = CLUSTER_IAS_ZONE ∧ payload.getD 0 1 = 0 then
      ({ st with endpoint := { st.endpoint with zoneStatus := ZoneStatus.Enroll } },
       [Effect.interviewDevice])
    else (st, [])
  else (st, [])

/-- ZigBee::messageReveived, zigbee.cpp lines 1249 to 1298, with the
source's misspelt name. The ZCL header is peeled off (with the
manufacturer-specific offset), the frame is dispatched, the
endpointUpdated signal follows the dispatch when a property changed,
and last of all the Default Response is enqueued exactly when the frame
was cluster-specific or a report and the peer allowed it. Link quality
and last-seen bookkeeping touch no state a claim mentions and are
omitted. -/
def ZigBee.msgTransactionId (data : List Nat) : Nat :=
  if data.getD 0 0 &&& FC_MANUFACTURER_SPECIFIC ≠ 0 then data.getD 3 0 else data.getD 1 0

def ZigBee.msgCommandId (data : List Nat) : Nat :=
  if data.getD 0 0 &&& FC_MANUFACTURER_SPECIFIC ≠ 0 then data.getD 4 0 else data.getD 2 0

def ZigBee.msgPayload (data : List Nat) : List Nat :=
  if data.getD 0 0 &&& FC_MANUFACTURER_SPECIFIC ≠ 0 then data.drop 5 else data.drop 3

/-- The dispatch step of ZigBee::messageReveived, zigbee.cpp lines 1275
to 1278: cluster-specific frames to clusterCommandReceived, the rest to
globalCommandReceived. -/
def ZigBee.msgDispatch (ieee : List Nat) (now : Nat) (tz : Int) (st : ZState)
    (clusterId : Nat) (data : List Nat) : ZState × List Effect :=
  if data.getD 0 0 &&& FC_CLUSTER_SPECIFIC ≠ 0 then
    ZigBee.clusterCommandReceived st clusterId (ZigBee.msgTransactionId data)
      (ZigBee.msgCommandId data) (ZigBee.msgPayload data)
  else
    ZigBee.globalCommandReceived ieee now tz st clusterId (ZigBee.msgTransactionId data)
      (ZigBee.msgCommandId data) (ZigBee.msgPayload data)

def ZigBee.messageReveived (ieee : List Nat) (now : Nat) (tz : Int) (st : ZState)
    (clusterId : Nat) (data : List Nat) : ZState × List Effect :=
  if st.device.removed then (st, [])
  else
    ((ZigBee.msgDispatch ieee now tz st clusterId data).1,
     (ZigBee.msgDispatch ieee now tz st clusterId data).2
     ++ (if (ZigBee.msgDispatch ieee now tz st clusterId data).1.endpoint.updated then
          [Effect.storeProperties,
           Effect.endpointUpdated (ZigBee.msgDispatch ieee now tz st clusterId
             data).1.endpoint.id]
        else [])
     ++ (if (data.getD 0 0 &&& FC_CLUSTER_SPECIFIC ≠ 0
            ∨ ZigBee.msgCommandId data = CMD_REPORT_ATTRIBUTES)
          ∧ data.getD 0 0 &&& FC_DISABLE_DEFAULT_RESPONSE = 0 then
          [Effect.enqueueData
            (ZigBee.msgDispatch ieee now tz st clusterId data).1.endpoint.id clusterId
            (zclHeader (FC_SERVER_TO_CLIENT ||| FC_DISABLE_DEFAULT_RESPONSE)
              (ZigBee.msgTransactionId data) CMD_DEFAULT_RESPONSE 0
             ++ [ZigBee.msgCommandId data, 0x00])]
        else []))

/-!
Concrete fixtures used by the witnesses.
-/

def sampleDevice : Device :=
  { manufacturerName := "Acme"
    modelName := "Widget"
    version := 0
    powerSource := 0
    logicalType := LogicalType.Router
    interviewFinished := true
    descriptorReceived := true
    endpointsReceived := true
    interviewEndpointId := 0
    removed := false }

def sampleEndpoint : Endpoint :=
  { id := 1
    inClusters := []
    descriptorReceived := true
    zoneStatus := ZoneStatus.Enrolled
    updated := false
    properties := [] }

def sampleState : ZState :=
  { device := sampleDevice, endpoint := sampleEndpoint, ota := none }

def freshDevice : Device :=
  { DeviceObject.new with
      manufacturerName := "Acme"
      modelName := "Widget"
      descriptorReceived := true
      endpointsReceived := true }

def freshState : ZState :=
  { device := DeviceObject.new, endpoint := sampleEndpoint, ota := none }

def sampleOtaHeader : OtaHeader :=
  { manufacturerCode := 0x1141
    imageType := 0x0001
    fileVersion := 0x00010002
    imageSize := 1024 }

def sampleOtaFile : OtaFile := { header := sampleOtaHeader, content := [] }

def otaState : ZState := { sampleState with ota := some sampleOtaFile }

/-!
Helper lemmas.
-/

/-- A QMap insert never yields an empty map. -/
theorem mapInsert_isEmpty (m : List (String × Prim)) (k : String) (p : Prim) :
    (mapInsert m k p).isEmpty = false := by
  cases m with
  | nil => rfl
  | cons hd rest =>
    obtain ⟨k1, p1⟩ := hd
    unfold mapInsert
    split
    · rfl
    · split <;> rfl

/-- Looking up the key just inserted into a QMap returns the inserted
value. -/
theorem mapGet_mapInsert (m : List (String × Prim)) (k : String) (p : Prim) :
    mapGet (mapInsert m k p) k = some p := by
  induction m with
  | nil => simp [mapInsert, mapGet]
  | cons hd rest ih =>
    obtain ⟨k1, p1⟩ := hd
    unfold mapInsert
    split
    · simp [mapGet]
    · split
      · simp [mapGet]
      · rename_i hlt heq
        rw [mapGet, if_neg (fun hh => heq hh.symm), ih]

/-- A QMap insert never yields the empty list. -/
theorem mapInsert_ne_nil (m : List (String × Prim)) (k : String) (p : Prim) :
    mapInsert m k p ≠ [] := by
  cases m with
  | nil => simp [mapInsert]
  | cons hd rest =>
    obtain ⟨k1, p1⟩ := hd
    unfold mapInsert
    split
    · simp
    · split <;> simp

/-- A string with the lumi.sensor prefix is not empty. -/
theorem strStartsWith_lumi_ne_empty (s : String) :
    strStartsWith s "lumi.sensor" = true → s ≠ "" := by
  intro h heq
  subst heq
  exact absurd h (by decide)

/-!
Claim theorems.
-/

/-- C1: the claim that every Property parser is a silent no-op on any
frame whose (attributeId, dataType, length) triple fails its declared
contract is violated by the code:
PropertiesOther::KonkeButtonAction::parseAttribte joins its attribute
and type checks with a conjunction (property.cpp line 942), so the
frame (attributeId 0x0001, boolean type, byte 0x80) fails the declared
(0x0000, boolean) contract yet still overwrites the value with
singleClick; a representative conforming parser, BatteryVoltage, is a
no-op on its own mismatched frame. -/
theorem claim_C1_konke_mismatch_updates :
    PropertiesOther.KonkeButtonAction.parseAttribte 0x0001 DATA_TYPE_BOOLEAN [0x80] Value.invalid
        = Value.prim (Prim.str "singleClick")
    ∧ Properties.BatteryVoltage.parseAttribte 0x0021 DATA_TYPE_8BIT_UNSIGNED [0x1D] Value.invalid
        = Value.invalid := by
  exact ⟨rfl, rfl⟩

/-- C2: the claim that no entry whose status was Finished or Aborted at
the start of the removal pass survives a single run of
ZigBee::handleRequests is violated by the code: the removal loop
(zigbee.cpp lines 1385 to 1392) erases with erase(it++) inside a for
statement that increments the iterator again, so with two adjacent
Finished entries the second one is skipped and remains in the table
after the tick. -/
theorem claim_C2_finished_entry_survives_tick :
    ZigBee.handleRequests (fun _ => true)
      [{ id := 1, kind := RequestType.Data, status := RequestStatus.Finished },
       { id := 2, kind := RequestType.Data, status := RequestStatus.Finished }]
      = [{ id := 2, kind := RequestType.Data, status := RequestStatus.Finished }] := by
  rfl

/-- C4 counterexample: the claim feeds CubeMovement attribute 0x0055
with data type 0x39 (single-precision float), but the parser
(property.cpp line 784) accepts only DATA_TYPE_16BIT_UNSIGNED (0x21),
so on the claimed input the value stays unchanged instead of becoming
flip. -/
theorem claim_C4_counterexample :
    PropertiesLUMI.CubeMovement.parseAttribte 0x0055 0x39 [0x82, 0x00] Value.invalid
      = Value.invalid := by
  rfl

/-- C4 (amended): with the data type the parser actually declares,
0x21 (16-bit unsigned), the LUMI CubeMovement parser maps the
little-endian payload value 130 to flip, 0 to shake and 2 to wake. -/
theorem claim_C4_cube_movement :
    (∀ v : Value,
      PropertiesLUMI.CubeMovement.parseAttribte 0x0055 0x21 [0x82, 0x00] v
        = Value.prim (Prim.str "flip"))
    ∧ (∀ v : Value,
      PropertiesLUMI.CubeMovement.parseAttribte 0x0055 0x21 [0x00, 0x00] v
        = Value.prim (Prim.str "shake"))
    ∧ (∀ v : Value,
      PropertiesLUMI.CubeMovement.parseAttribte 0x0055 0x21 [0x02, 0x00] v
        = Value.prim (Prim.str "wake")) := by
  refine ⟨fun v => ?_, fun v => ?_, fun v => ?_⟩ <;>
    norm_num [PropertiesLUMI.CubeMovement.parseAttribte, toSigned16,
      DATA_TYPE_16BIT_UNSIGNED]

/-- C5 counterexample: on the claimed frame (command 0x01, dataPoint
0x07, type 0x02, big-endian length 4, value 42) the PresenceSensor
property is left unchanged, because its update switch (property.cpp
lines 887 to 905) has no case for dataPoint 0x07; in particular no
duration entry appears. -/
theorem claim_C5_counterexample :
    PropertiesTUYA.Data.parseCommand PropertiesTUYA.PresenceSensor.update 0x01
        [0x00, 0x00, 0x07, 0x02, 0x00, 0x04, 0x00, 0x00, 0x00, 0x2A] Value.invalid
      = Value.invalid
    ∧ mapGet (PropertiesTUYA.Data.parseCommand PropertiesTUYA.PresenceSensor.update 0x01
        [0x00, 0x00, 0x07, 0x02, 0x00, 0x04, 0x00, 0x00, 0x00, 0x2A] Value.invalid).toMap
        "duration" = none := by
  exact ⟨rfl, rfl⟩

/-- C5 (amended): dataPoint 0x07 is the NeoSiren duration datapoint:
the same frame delivered to the NeoSiren property stores duration = 42
in its value map, whatever the previous value was. -/
theorem claim_C5_neosiren_duration (v : Value) :
    mapGet (PropertiesTUYA.Data.parseCommand PropertiesTUYA.NeoSiren.update 0x01
        [0x00, 0x00, 0x07, 0x02, 0x00, 0x04, 0x00, 0x00, 0x00, 0x2A] v).toMap "duration"
      = some (Prim.num 42) := by
  have h1 : PropertiesTUYA.Data.parseCommand PropertiesTUYA.NeoSiren.update 0x01
      [0x00, 0x00, 0x07, 0x02, 0x00, 0x04, 0x00, 0x00, 0x00, 0x2A] v
      = PropertiesTUYA.NeoSiren.update 0x07 (TuyaValue.num 42) v := rfl
  rw [h1]
  unfold PropertiesTUYA.NeoSiren.update
  norm_num [TuyaValue.toInt]
  rw [if_neg (mapInsert_ne_nil v.toMap "duration" (Prim.num 42))]
  simp [Value.toMap, mapGet_mapInsert]

/-- C9: the BatteryVoltage parser maps the raw byte (a voltage in
hundreds of millivolts) linearly from the 2850 to 3200 millivolt range
onto 0 to 100 percent, clipping at both ends; the byte 0x1D (2900
millivolts) yields 14 percent. -/
theorem claim_C9_battery_voltage :
    (∀ v : Value,
      Properties.BatteryVoltage.parseAttribte 0x0020 0x20 [0x1D] v
        = Value.prim (Prim.num 14))
    ∧ (∀ (v : Value) (raw : Nat), raw ≤ 28 →
      Properties.BatteryVoltage.parseAttribte 0x0020 0x20 [raw] v
        = Value.prim (Prim.num 0))
    ∧ (∀ (v : Value) (raw : Nat), 32 ≤ raw →
      Properties.BatteryVoltage.parseAttribte 0x0020 0x20 [raw] v
        = Value.prim (Prim.num 100))
    ∧ (∀ (v : Value) (raw : Nat), 2850 ≤ (raw : ℚ) * 100 → (raw : ℚ) * 100 ≤ 3200 →
      Properties.BatteryVoltage.parseAttribte 0x0020 0x20 [raw] v
        = Value.prim (Prim.num ((⌊((raw : ℚ) * 100 - 2850) / 350 * 100⌋).toNat))) := by
  refine ⟨fun v => ?_, fun v raw h => ?_, fun v raw h => ?_, fun v raw h1 h2 => ?_⟩
  · norm_num [Properties.BatteryVoltage.parseAttribte, PropertyObject.percentage,
      DATA_TYPE_8BIT_UNSIGNED]
    rfl
  · have hq : (raw : ℚ) * 100 < 2850 := by
      have : (raw : ℚ) ≤ 28 := by exact_mod_cast h
      linarith
    norm_num [Properties.BatteryVoltage.parseAttribte, PropertyObject.percentage,
      DATA_TYPE_8BIT_UNSIGNED]
    rw [if_pos hq, if_neg (by norm_num)]
    norm_num
  · have hq : (3200 : ℚ) ≤ (raw : ℚ) * 100 := by
      have : (32 : ℚ) ≤ (raw : ℚ) := by exact_mod_cast h
      linarith
    norm_num [Properties.BatteryVoltage.parseAttribte, PropertyObject.percentage,
      DATA_TYPE_8BIT_UNSIGNED]
    rw [if_neg (show ¬ ((raw : ℚ) * 100 < 2850) by linarith)]
    by_cases hgt : (3200 : ℚ) < (raw : ℚ) * 100
    · rw [if_pos hgt]
      norm_num
      rfl
    · rw [if_neg hgt]
      have heq : (raw : ℚ) * 100 = 3200 := le_antisymm (not_lt.mp hgt) hq
      rw [heq]
      norm_num
      rfl
  · norm_num [Properties.BatteryVoltage.parseAttribte, PropertyObject.percentage,
      DATA_TYPE_8BIT_UNSIGNED]
    rw [if_neg (not_lt.mpr h1), if_neg (not_lt.mpr h2)]

/-- C9 witness: the clipping and in-range conjuncts applied at the raw
bytes 28, 33 and 30. -/
theorem claim_C9_battery_voltage_witness :
    Properties.BatteryVoltage.parseAttribte 0x0020 0x20 [0x1C] Value.invalid
        = Value.prim (Prim.num 0)
    ∧ Properties.BatteryVoltage.parseAttribte 0x0020 0x20 [0x21] Value.invalid
        = Value.prim (Prim.num 100)
    ∧ Properties.BatteryVoltage.parseAttribte 0x0020 0x20 [0x1E] Value.invalid
        = Value.prim (Prim.num ((⌊(((30 : Nat) : ℚ) * 100 - 2850) / 350 * 100⌋).toNat)) :=
  ⟨claim_C9_battery_voltage.2.1 Value.invalid 28 (by norm_num),
   claim_C9_battery_voltage.2.2.1 Value.invalid 33 (by norm_num),
   claim_C9_battery_voltage.2.2.2 Value.invalid 30 (by norm_num) (by norm_num)⟩

/-- The IAS interview loop either leaves the device untouched (a
sub-request was issued or failed) or finishes the interview. -/
theorem iasInterviewLoop_device (a1 a2 : Bool) (d : Device) (eps : List Endpoint) :
    (ZigBee.iasInterviewLoop a1 a2 d eps).2 = d
    ∨ (ZigBee.iasInterviewLoop a1 a2 d eps).2 = ZigBee.interviewFinishedStep d := by
  induction eps with
  | nil => exact Or.inr rfl
  | cons e rest ih =>
    unfold ZigBee.iasInterviewLoop
    split
    · split
      · exact Or.inl rfl
      · exact Or.inl rfl
      · exact Or.inl rfl
      · exact ih
    · exact ih

/-- The TUYA-rename tail of the Basic branch never changes the
interview flag. -/
theorem basicFinish_flag (attributeId : Nat) (d : Device) (ep : Endpoint) :
    (ZigBee.basicFinish attributeId d ep).1.interviewFinished = d.interviewFinished := by
  unfold ZigBee.basicFinish
  split
  · split
    · split <;> rfl
    · rfl
  · rfl

/-- Every branch of ZigBee::parseAttribute either preserves the
interview flag or is the LUMI join quirk, which stamps the LUMI
manufacturer name onto a lumi.sensor model name. -/
theorem parseAttribute_flag (ieee : List Nat) (d : Device) (ep : Endpoint)
    (clusterId attributeId dataType : Nat) (data : List Nat) :
    (ZigBee.parseAttribute ieee d ep clusterId attributeId dataType data).1.interviewFinished
        = d.interviewFinished
    ∨ ((ZigBee.parseAttribute ieee d ep clusterId attributeId dataType data).1.manufacturerName
          = "LUMI"
        ∧ strStartsWith
            (ZigBee.parseAttribute ieee d ep clusterId attributeId dataType data).1.modelName
            "lumi.sensor" = true) := by
  unfold ZigBee.parseAttribute
  repeat' split
  all_goals try exact Or.inl (basicFinish_flag _ _ _)
  all_goals try exact Or.inl rfl
  all_goals rename_i hq
  all_goals exact Or.inr ⟨rfl, hq.2⟩

/-- C3 (amended): every path that sets a device's interviewFinished
flag other than the coordinator entry, namely the interview FSM
reaching ZigBee::interviewFinished and the LUMI join quirk inside
ZigBee::parseAttribute, establishes a non-empty manufacturerName and a
non-empty modelName at the moment the flag is set; the coordinator
entry created on adapter start violates the claimed invariant. -/
theorem claim_C3_interview_sets_names :
    (∀ (a1 a2 : Bool) (d : Device) (eps : List Endpoint),
        (ZigBee.interviewRequest a1 a2 d eps).2.interviewFinished = true →
        d.interviewFinished = true
        ∨ ((ZigBee.interviewRequest a1 a2 d eps).2.manufacturerName ≠ ""
            ∧ (ZigBee.interviewRequest a1 a2 d eps).2.modelName ≠ ""))
    ∧ (∀ (ieee : List Nat) (d : Device) (ep : Endpoint)
          (clusterId attributeId dataType : Nat) (data : List Nat),
        (ZigBee.parseAttribute ieee d ep clusterId attributeId dataType
            data).1.interviewFinished = true →
        d.interviewFinished = true
        ∨ ((ZigBee.parseAttribute ieee d ep clusterId attributeId dataType
              data).1.manufacturerName ≠ ""
            ∧ (ZigBee.parseAttribute ieee d ep clusterId attributeId dataType
                data).1.modelName ≠ "")) := by
  constructor
  · intro a1 a2 d eps h
    by_cases hn : d.manufacturerName = "" ∨ d.modelName = ""
    · left
      unfold ZigBee.interviewRequest at h
      rw [if_pos hn] at h
      repeat' split at h
      all_goals simpa using h
    · right
      unfold ZigBee.interviewRequest
      rw [if_neg hn]
      push_neg at hn
      rcases iasInterviewLoop_device a1 a2 d eps with hd | hd <;> rw [hd] <;>
        exact ⟨hn.1, hn.2⟩
  · intro ieee d ep clusterId attributeId dataType data h
    rcases parseAttribute_flag ieee d ep clusterId attributeId dataType data with hf | ⟨hm, hs⟩
    · left
      rw [← hf]
      exact h
    · right
      refine ⟨?_, strStartsWith_lumi_ne_empty _ hs⟩
      rw [hm]
      decide

/-- C3 witness: a device with both names known and no IAS endpoints has
its interview finished by interviewRequest and ends with non-empty
names; a frame on an ordinary cluster for an interviewed device keeps
the flag and the names. -/
theorem claim_C3_interview_sets_names_witness :
    (freshDevice.interviewFinished = true
      ∨ ((ZigBee.interviewRequest true true freshDevice []).2.manufacturerName ≠ ""
          ∧ (ZigBee.interviewRequest true true freshDevice []).2.modelName ≠ ""))
    ∧ (sampleDevice.interviewFinished = true
      ∨ ((ZigBee.parseAttribute [] sampleDevice sampleEndpoint 0x0006 0x0000 0x10
            []).1.manufacturerName ≠ ""
          ∧ (ZigBee.parseAttribute [] sampleDevice sampleEndpoint 0x0006 0x0000 0x10
              []).1.modelName ≠ "")) :=
  ⟨claim_C3_interview_sets_names.1 true true freshDevice [] (by decide),
   claim_C3_interview_sets_names.2 [] sampleDevice sampleEndpoint 0x0006 0x0000 0x10 []
     (by rfl)⟩

/-- C3 counterexample: the coordinator catalogue entry built by
ZigBee::coordinatorReady has its interviewFinished flag set while both
of its names are empty, so the claimed invariant does not hold for
every device in every reachable state. -/
theorem claim_C3_counterexample :
    ZigBee.coordinatorDevice.interviewFinished = true
    ∧ ZigBee.coordinatorDevice.manufacturerName = ""
    ∧ ZigBee.coordinatorDevice.modelName = "" :=
  ⟨rfl, rfl, rfl⟩

/-- The TUYA-rename tail of the Basic branch never touches the
endpoint. -/
theorem basicFinish_endpoint (attributeId : Nat) (d : Device) (ep : Endpoint) :
    (ZigBee.basicFinish attributeId d ep).2.1 = ep := by
  unfold ZigBee.basicFinish
  split
  · split
    · split <;> rfl
    · rfl
  · rfl

/-- C10: while a device's interview has not finished, incoming frames
never change any property value: clusterCommandReceived returns before
anything runs (Groups and OTA handling included), and parseAttribute
leaves the endpoint's property list untouched (the Basic and IAS Zone
branches feed the interview instead, and the parser loop is guarded by
interviewFinished). -/
theorem claim_C10_uninterviewed_no_property_updates :
    (∀ (st : ZState) (clusterId transactionId commandId : Nat) (payload : List Nat),
        st.device.interviewFinished = false →
        ZigBee.clusterCommandReceived st clusterId transactionId commandId payload = (st, []))
    ∧ (∀ (ieee : List Nat) (d : Device) (ep : Endpoint)
          (clusterId attributeId dataType : Nat) (data : List Nat),
        d.interviewFinished = false →
        (ZigBee.parseAttribute ieee d ep clusterId attributeId dataType data).2.1.properties
          = ep.properties) := by
  constructor
  · intro st c t cm p h
    unfold ZigBee.clusterCommandReceived
    rw [if_pos h]
  · intro ieee d ep c a t dat h
    unfold ZigBee.parseAttribute
    repeat' split
    all_goals try rfl
    all_goals exact congrArg Endpoint.properties (basicFinish_endpoint _ _ _)

/-- C10 witness: a cluster command and an ordinary attribute delivered
to a freshly joined (uninterviewed) device leave state and properties
alone. -/
theorem claim_C10_uninterviewed_witness :
    ZigBee.clusterCommandReceived freshState 0x0006 0x01 0x02 [0x00] = (freshState, [])
    ∧ (ZigBee.parseAttribute [] DeviceObject.new sampleEndpoint 0x0006 0x0000 0x10
        [0x01]).2.1.properties = sampleEndpoint.properties :=
  ⟨claim_C10_uninterviewed_no_property_updates.1 freshState 0x0006 0x01 0x02 [0x00] rfl,
   claim_C10_uninterviewed_no_property_updates.2 [] DeviceObject.new sampleEndpoint
     0x0006 0x0000 0x10 [0x01] rfl⟩

/-- C6: a global CMD_READ_ATTRIBUTES on the Time cluster asking for
attribute 0x0000 enqueues a READ_ATTRIBUTES_RESPONSE with the same
transaction id, record status 0, data type UTC_TIME (0xE2) and the
current Unix epoch second minus 946684800 as a little-endian u32, under
a frame control with exactly SERVER_TO_CLIENT and
DISABLE_DEFAULT_RESPONSE set; any attribute other than 0x0000, 0x0002
and 0x0007 is answered with STATUS_UNSUPPORTED_ATTRIBUTE. -/
theorem claim_C6_time_cluster_read :
    (∀ (ieee : List Nat) (now : Nat) (tz : Int) (st : ZState) (tid : Nat),
      ZigBee.globalCommandReceived ieee now tz st CLUSTER_TIME tid CMD_READ_ATTRIBUTES
          [0x00, 0x00]
        = (st, [Effect.enqueueData st.endpoint.id CLUSTER_TIME
            ([FC_SERVER_TO_CLIENT ||| FC_DISABLE_DEFAULT_RESPONSE, tid,
              CMD_READ_ATTRIBUTES_RESPONSE, 0x00, 0x00, STATUS_SUCCESS, DATA_TYPE_UTC_TIME]
             ++ u32LE (u32ofInt ((now : Int) - 946684800)))]))
    ∧ (∀ (ieee : List Nat) (now : Nat) (tz : Int) (st : ZState) (tid a b : Nat),
        ¬ (a + 256 * b = 0x0000 ∨ a + 256 * b = 0x0002 ∨ a + 256 * b = 0x0007) →
        ZigBee.globalCommandReceived ieee now tz st CLUSTER_TIME tid CMD_READ_ATTRIBUTES [a, b]
          = (st, [Effect.enqueueData st.endpoint.id CLUSTER_TIME
              [FC_SERVER_TO_CLIENT ||| FC_DISABLE_DEFAULT_RESPONSE, tid,
               CMD_READ_ATTRIBUTES_RESPONSE, a, b, STATUS_UNSUPPORTED_ATTRIBUTE]]))
    ∧ (∀ (now : Nat) (tz : Int) (a b : Nat) (rest : List Nat),
        ¬ (a + 256 * b = 0x0000 ∨ a + 256 * b = 0x0002 ∨ a + 256 * b = 0x0007) →
        ZigBee.readAttributesRecords CLUSTER_TIME now tz (a :: b :: rest)
          = [a, b, STATUS_UNSUPPORTED_ATTRIBUTE]
            ++ ZigBee.readAttributesRecords CLUSTER_TIME now tz rest) := by
  refine ⟨?_, ?_, ?_⟩
  · intro ieee now tz st tid
    rfl
  · intro ieee now tz st tid a b h
    unfold ZigBee.globalCommandReceived
    rw [if_neg (by decide), if_pos rfl]
    unfold ZigBee.readAttributesRecords
    rw [if_neg (fun hc => h hc.2)]
    rfl
  · intro now tz a b rest h
    conv_lhs => rw [ZigBee.readAttributesRecords]
    rw [if_neg (fun hc => h hc.2)]
    rfl

/-- C6 witness: the unsupported-attribute conjunct applied to attribute
0x0001 on the Time cluster. -/
theorem claim_C6_time_cluster_read_witness :
    ZigBee.globalCommandReceived [] 0 0 sampleState CLUSTER_TIME 0x7E CMD_READ_ATTRIBUTES
        [0x01, 0x00]
      = (sampleState, [Effect.enqueueData sampleState.endpoint.id CLUSTER_TIME
          [FC_SERVER_TO_CLIENT ||| FC_DISABLE_DEFAULT_RESPONSE, 0x7E,
           CMD_READ_ATTRIBUTES_RESPONSE, 0x01, 0x00, STATUS_UNSUPPORTED_ATTRIBUTE]]) :=
  claim_C6_time_cluster_read.2.1 [] 0 0 sampleState 0x7E 0x01 0x00 (by decide)

/-- Little-endian 16-bit encode then decode is the identity on u16
values. -/
theorem u16_roundtrip (n : Nat) (h : n < 65536) :
    n % 256 + 256 * (n / 256 % 256) = n := by
  omega

/-- Little-endian 32-bit encode then decode is the identity on u32
values. -/
theorem u32_roundtrip (n : Nat) (h : n < 4294967296) :
    n % 256 + 256 * (n / 256 % 256) + 65536 * (n / 65536 % 256)
      + 16777216 * (n / 16777216 % 256) = n := by
  omega

/-- C7: on an OTA ImageRequest (cluster 0x0019 command 0x01) handled
for an interviewed device, a missing or unopenable image file, a
manufacturerCode or imageType differing from the file header, or a
fileVersion equal to the header's all produce an ImageResponse
(command 0x02) carrying STATUS_NO_IMAGE_AVAILABLE, with no error path;
otherwise the response carries status 0 and the header's
manufacturerCode, imageType, fileVersion and imageSize. The handler is
a total function, so no input raises an error. -/
theorem claim_C7_ota_image_request (st : ZState) (tid fcb mfc typ ver : Nat)
    (hint : st.device.interviewFinished = true)
    (hmfc : mfc < 65536) (htyp : typ < 65536) (hver : ver < 4294967296) :
    (st.ota = none →
      ZigBee.clusterCommandReceived st CLUSTER_OTA_UPGRADE tid 0x01
          (fcb :: (u16LE mfc ++ u16LE typ ++ u32LE ver))
        = (st, [Effect.enqueueData st.endpoint.id CLUSTER_OTA_UPGRADE
            [FC_CLUSTER_SPECIFIC ||| FC_SERVER_TO_CLIENT ||| FC_DISABLE_DEFAULT_RESPONSE,
             tid, 0x02, STATUS_NO_IMAGE_AVAILABLE]]))
    ∧ (∀ f : OtaFile, st.ota = some f →
        mfc ≠ f.header.manufacturerCode ∨ typ ≠ f.header.imageType →
        ZigBee.clusterCommandReceived st CLUSTER_OTA_UPGRADE tid 0x01
            (fcb :: (u16LE mfc ++ u16LE typ ++ u32LE ver))
          = (st, [Effect.enqueueData st.endpoint.id CLUSTER_OTA_UPGRADE
              [FC_CLUSTER_SPECIFIC ||| FC_SERVER_TO_CLIENT ||| FC_DISABLE_DEFAULT_RESPONSE,
               tid, 0x02, STATUS_NO_IMAGE_AVAILABLE]]))
    ∧ (∀ f : OtaFile, st.ota = some f →
        mfc = f.header.manufacturerCode → typ = f.header.imageType →
        ver = f.header.fileVersion →
        ZigBee.clusterCommandReceived st CLUSTER_OTA_UPGRADE tid 0x01
            (fcb :: (u16LE mfc ++ u16LE typ ++ u32LE ver))
          = (st, [Effect.enqueueData st.endpoint.id CLUSTER_OTA_UPGRADE
              [FC_CLUSTER_SPECIFIC ||| FC_SERVER_TO_CLIENT ||| FC_DISABLE_DEFAULT_RESPONSE,
               tid, 0x02, STATUS_NO_IMAGE_AVAILABLE]]))
    ∧ (∀ f : OtaFile, st.ota = some f →
        mfc = f.header.manufacturerCode → typ = f.header.imageType →
        ver ≠ f.header.fileVersion →
        ZigBee.clusterCommandReceived st CLUSTER_OTA_UPGRADE tid 0x01
            (fcb :: (u16LE mfc ++ u16LE typ ++ u32LE ver))
          = (st, [Effect.enqueueData st.endpoint.id CLUSTER_OTA_UPGRADE
              ([FC_CLUSTER_SPECIFIC ||| FC_SERVER_TO_CLIENT ||| FC_DISABLE_DEFAULT_RESPONSE,
                tid, 0x02, 0x00]
               ++ u16LE f.header.manufacturerCode ++ u16LE f.header.imageType
               ++ u32LE f.header.fileVersion ++ u32LE f.header.imageSize)])) := by
  have hdm : u16LEat (fcb :: (u16LE mfc ++ u16LE typ ++ u32LE ver)) 1 = mfc := by
    simp [u16LEat, u16LE, u32LE, List.getD_cons_succ, List.getD_cons_zero]
    omega
  have hdt : u16LEat (fcb :: (u16LE mfc ++ u16LE typ ++ u32LE ver)) 3 = typ := by
    simp [u16LEat, u16LE, u32LE, List.getD_cons_succ, List.getD_cons_zero]
    omega
  have hdv : u32LEat (fcb :: (u16LE mfc ++ u16LE typ ++ u32LE ver)) 5 = ver := by
    simp [u32LEat, u16LE, u32LE, List.getD_cons_succ, List.getD_cons_zero]
    omega
  have hcc : ∀ payload : List Nat,
      ZigBee.clusterCommandReceived st CLUSTER_OTA_UPGRADE tid 0x01 payload
        = ZigBee.otaClusterCommand st tid 0x01 payload := by
    intro payload
    unfold ZigBee.clusterCommandReceived
    rw [if_neg (by simp [hint]), if_neg (by decide), if_pos rfl]
  refine ⟨?_, ?_, ?_, ?_⟩
  · intro hota
    rw [hcc]
    simp only [ZigBee.otaClusterCommand, hota, hdm, hdt, hdv]
    rfl
  · intro f hota hne
    rw [hcc]
    simp only [ZigBee.otaClusterCommand, hota, hdm, hdt, hdv]
    rw [if_pos trivial, if_pos hne]
    rfl
  · intro f hota h1 h2 h3
    rw [hcc]
    simp only [ZigBee.otaClusterCommand, hota, hdm, hdt, hdv]
    rw [if_pos trivial, if_neg (by push_neg; exact ⟨h1, h2⟩), if_pos h3]
    rfl
  · intro f hota h1 h2 h3
    rw [hcc]
    simp only [ZigBee.otaClusterCommand, hota, hdm, hdt, hdv]
    rw [if_pos trivial, if_neg (by push_neg; exact ⟨h1, h2⟩), if_neg h3]
    rfl

/-- C7 witness: the no-image and success replies at a concrete state
and request. -/
theorem claim_C7_ota_image_request_witness :
    (ZigBee.clusterCommandReceived sampleState CLUSTER_OTA_UPGRADE 0x11 0x01
        (0x00 :: (u16LE 0x1141 ++ u16LE 0x0001 ++ u32LE 0x00010001))
      = (sampleState, [Effect.enqueueData sampleState.endpoint.id CLUSTER_OTA_UPGRADE
          [FC_CLUSTER_SPECIFIC ||| FC_SERVER_TO_CLIENT ||| FC_DISABLE_DEFAULT_RESPONSE,
           0x11, 0x02, STATUS_NO_IMAGE_AVAILABLE]]))
    ∧ (ZigBee.clusterCommandReceived otaState CLUSTER_OTA_UPGRADE 0x11 0x01
        (0x00 :: (u16LE 0x1141 ++ u16LE 0x0001 ++ u32LE 0x00010001))
      = (otaState,
          [Effect.enqueueData otaState.endpoint.id CLUSTER_OTA_UPGRADE
            ([FC_CLUSTER_SPECIFIC ||| FC_SERVER_TO_CLIENT ||| FC_DISABLE_DEFAULT_RESPONSE,
              0x11, 0x02, 0x00]
             ++ u16LE sampleOtaFile.header.manufacturerCode
             ++ u16LE sampleOtaFile.header.imageType
             ++ u32LE sampleOtaFile.header.fileVersion
             ++ u32LE sampleOtaFile.header.imageSize)])) :=
  ⟨(claim_C7_ota_image_request sampleState 0x11 0x00 0x1141 0x0001 0x00010001 rfl
      (by decide) (by decide) (by decide)).1 rfl,
   (claim_C7_ota_image_request otaState 0x11 0x00 0x1141 0x0001 0x00010001 rfl
      (by decide) (by decide) (by decide)).2.2.2 sampleOtaFile rfl rfl rfl (by decide)⟩

/-- The TUYA-rename tail emits at most the interview re-kick, never an
enqueued frame. -/
theorem basicFinish_effects (attributeId : Nat) (d : Device) (ep : Endpoint) :
    ((ZigBee.basicFinish attributeId d ep).2.2).any isDefaultResponseEffect = false := by
  unfold ZigBee.basicFinish
  split
  · split
    · rfl
    · rfl
  · rfl

/-- ZigBee::parseAttribute never enqueues any frame, so in particular
no Default Response. -/
theorem parseAttribute_no_default (ieee : List Nat) (d : Device) (ep : Endpoint)
    (clusterId attributeId dataType : Nat) (data : List Nat) :
    ((ZigBee.parseAttribute ieee d ep clusterId attributeId dataType data).2.2).any
        isDefaultResponseEffect = false := by
  unfold ZigBee.parseAttribute
  repeat' split
  all_goals try rfl
  all_goals exact basicFinish_effects _ _ _

/-- The attribute-record walk only produces parseAttribute effects, so
no Default Response. -/
theorem attributeRecords_no_default (fuel : Nat) (ieee : List Nat) (st : ZState)
    (clusterId commandId : Nat) (payload : List Nat) :
    ((ZigBee.attributeRecords fuel ieee st clusterId commandId payload).2).any
        isDefaultResponseEffect = false := by
  induction fuel generalizing st payload with
  | zero => rfl
  | succ n ih =>
    simp only [ZigBee.attributeRecords]
    repeat' split
    all_goals try rfl
    all_goals try exact ih _ _
    all_goals simp [List.any_append, parseAttribute_no_default, ih]

/-- ZigBee::globalCommandReceived never enqueues a Default Response:
its only enqueue is the READ_ATTRIBUTES response, whose command byte is
CMD_READ_ATTRIBUTES_RESPONSE. -/
theorem globalCommandReceived_no_default (ieee : List Nat) (now : Nat) (tz : Int)
    (st : ZState) (clusterId transactionId commandId : Nat) (payload : List Nat) :
    ((ZigBee.globalCommandReceived ieee now tz st clusterId transactionId commandId
        payload).2).any isDefaultResponseEffect = false := by
  unfold ZigBee.globalCommandReceived
  repeat' split
  all_goals try rfl
  all_goals exact attributeRecords_no_default _ _ _ _ _ _

/-- ZigBee::clusterCommandReceived never enqueues a Default Response:
every OTA reply's frame control carries the cluster-specific bit. -/
theorem clusterCommandReceived_no_default (st : ZState)
    (clusterId transactionId commandId : Nat) (payload : List Nat) :
    ((ZigBee.clusterCommandReceived st clusterId transactionId commandId payload).2).any
        isDefaultResponseEffect = false := by
  simp only [ZigBee.clusterCommandReceived, ZigBee.otaClusterCommand]
  repeat' split
  all_goals rfl


/-- The dispatch step never emits a Default Response. -/
theorem msgDispatch_no_default (ieee : List Nat) (now : Nat) (tz : Int) (st : ZState)
    (clusterId : Nat) (data : List Nat) :
    ((ZigBee.msgDispatch ieee now tz st clusterId data).2).any isDefaultResponseEffect
      = false := by
  unfold ZigBee.msgDispatch
  split
  · exact clusterCommandReceived_no_default _ _ _ _ _
  · exact globalCommandReceived_no_default _ _ _ _ _ _ _ _

/-- C8: for every frame handled by messageReveived (the device resolved
and not removed), a Default Response with status 0x00 echoing the
frame's transaction id is enqueued exactly when the frame is
cluster-specific or a REPORT_ATTRIBUTES and the peer left
DISABLE_DEFAULT_RESPONSE clear; and when it is enqueued it is the last
effect of the handler, after the dispatch has applied every property
update to the returned state and after the storeProperties and
endpointUpdated emissions, none of which is itself a Default
Response. -/
theorem claim_C8_default_response (ieee : List Nat) (now : Nat) (tz : Int) (st : ZState)
    (clusterId : Nat) (data : List Nat) (fc tid cmd : Nat)
    (hrem : st.device.removed = false)
    (hfc : fc = data.getD 0 0)
    (htid : tid = ZigBee.msgTransactionId data)
    (hcmd : cmd = ZigBee.msgCommandId data) :
    (((fc &&& FC_CLUSTER_SPECIFIC ≠ 0 ∨ cmd = CMD_REPORT_ATTRIBUTES)
        ∧ fc &&& FC_DISABLE_DEFAULT_RESPONSE = 0) →
      ∃ pre,
        (ZigBee.messageReveived ieee now tz st clusterId data).2
          = pre ++ [Effect.enqueueData
              (ZigBee.messageReveived ieee now tz st clusterId data).1.endpoint.id clusterId
              (zclHeader (FC_SERVER_TO_CLIENT ||| FC_DISABLE_DEFAULT_RESPONSE) tid
                CMD_DEFAULT_RESPONSE 0 ++ [cmd, 0x00])]
        ∧ pre.any isDefaultResponseEffect = false)
    ∧ (¬ ((fc &&& FC_CLUSTER_SPECIFIC ≠ 0 ∨ cmd = CMD_REPORT_ATTRIBUTES)
        ∧ fc &&& FC_DISABLE_DEFAULT_RESPONSE = 0) →
      (ZigBee.messageReveived ieee now tz st clusterId data).2.any isDefaultResponseEffect
        = false) := by
  subst hfc
  subst htid
  subst hcmd
  constructor
  · intro hcond
    unfold ZigBee.messageReveived
    rw [if_neg (by simp [hrem]), if_pos hcond]
    refine ⟨(ZigBee.msgDispatch ieee now tz st clusterId data).2
        ++ (if (ZigBee.msgDispatch ieee now tz st clusterId data).1.endpoint.updated then
            [Effect.storeProperties,
             Effect.endpointUpdated (ZigBee.msgDispatch ieee now tz st clusterId
               data).1.endpoint.id]
          else []), ?_, ?_⟩
    · rw [List.append_assoc]
    · rw [List.any_append, msgDispatch_no_default]
      split
      · rfl
      · rfl
  · intro hcond
    unfold ZigBee.messageReveived
    rw [if_neg (by simp [hrem]), if_neg hcond]
    rw [List.append_assoc, List.any_append, msgDispatch_no_default, List.any_append]
    split
    · rfl
    · rfl

/-- C8 witness: a cluster-specific frame on a quiet endpoint yields
exactly the Default Response, and the same frame with
DISABLE_DEFAULT_RESPONSE set yields none. -/
theorem claim_C8_default_response_witness :
    (∃ pre,
      (ZigBee.messageReveived [] 0 0 sampleState 0x0006 [0x01, 0x2A, 0x40]).2
        = pre ++ [Effect.enqueueData
            (ZigBee.messageReveived [] 0 0 sampleState 0x0006 [0x01, 0x2A, 0x40]).1.endpoint.id
            0x0006
            (zclHeader (FC_SERVER_TO_CLIENT ||| FC_DISABLE_DEFAULT_RESPONSE)
              (ZigBee.msgTransactionId [0x01, 0x2A, 0x40]) CMD_DEFAULT_RESPONSE 0
             ++ [ZigBee.msgCommandId [0x01, 0x2A, 0x40], 0x00])]
        ∧ pre.any isDefaultResponseEffect = false)
    ∧ (ZigBee.messageReveived [] 0 0 sampleState 0x0006 [0x11, 0x2A, 0x40]).2.any
        isDefaultResponseEffect = false :=
  ⟨(claim_C8_default_response [] 0 0 sampleState 0x0006 [0x01, 0x2A, 0x40]
      0x01 (ZigBee.msgTransactionId [0x01, 0x2A, 0x40])
      (ZigBee.msgCommandId [0x01, 0x2A, 0x40]) rfl rfl rfl rfl).1 (by decide),
   (claim_C8_default_response [] 0 0 sampleState 0x0006 [0x11, 0x2A, 0x40]
      0x11 (ZigBee.msgTransactionId [0x11, 0x2A, 0x40])
      (ZigBee.msgCommandId [0x11, 0x2A, 0x40]) rfl rfl rfl rfl).2 (by decide)⟩
